import Mathlib

/-!
# Verification of the subscription billing core

A shallow embedding, in Lean 4, of the subscription lifecycle and billing
reconciliation code of this repository: the plan-hierarchy resolver, the
period calculator, the invoice persister, the webhook status mapping, and
the user-initiated transition handlers (create-payment, change-plan,
cancel-subscription, reactivate-subscription).

Remote-provider calls and database accesses are modelled explicitly: every
handler is a pure function from its request plus an environment (the
provider's responses for each call the handler makes, the current database
contents, and the current wall-clock time in milliseconds) to a run record
listing the provider mutations it issued, the local database writes it
performed, and its JSON result.  Timestamps follow the source convention:
the provider speaks Unix seconds, the local store speaks milliseconds
(ISO strings in the source; the millisecond value is what is modelled).
-/

namespace Billing

/-- The four plan tiers of the `PLAN_HIERARCHY` table. -/
inductive PlanType where
  | trial
  | monthly
  | semiannual
  | annual
  deriving DecidableEq, Repr, Fintype

/-- `PLAN_HIERARCHY`: trial 0, monthly 1, semiannual 2, annual 3. -/
def PLAN_HIERARCHY : PlanType → Nat
  | .trial => 0
  | .monthly => 1
  | .semiannual => 2
  | .annual => 3

/-- `isUpgrade`: the target plan ranks strictly above the current plan. -/
def isUpgrade (cur new : PlanType) : Bool :=
  PLAN_HIERARCHY new > PLAN_HIERARCHY cur

/-- `isDowngrade` as computed by the plan-change preview handler:
the target plan ranks strictly below the current plan. -/
def isDowngrade (cur new : PlanType) : Bool :=
  PLAN_HIERARCHY new < PLAN_HIERARCHY cur

/-- `hasIntervalChange`, the literal boolean expression of the source:
one side is monthly and the other is not, or the pair is
semiannual/annual in either direction. -/
def hasIntervalChange (cur new : PlanType) : Bool :=
  (cur == .monthly && new != .monthly) ||
  (cur != .monthly && new == .monthly) ||
  (cur == .semiannual && new == .annual) ||
  (cur == .annual && new == .semiannual)

/-- The result record of `calculatePeriodFromStripe`: period bounds as
millisecond timestamps (`Date` objects in the source), duration in whole
days, and the accuracy flag. -/
structure PeriodResult where
  startMs : Int
  endMs : Int
  durationDays : Int
  isAccurate : Bool
  deriving DecidableEq, Repr

/-- `calculatePeriodFromStripe(subscription, planType)`: converts the remote
subscription's `current_period_start`/`current_period_end` (Unix seconds) to
millisecond timestamps, takes the duration in whole days by ceiling, and
flags whether the duration lies in the tolerance band of the plan type.
Unknown durations are only flagged, never rejected. -/
def calculatePeriodFromStripe (periodStartSec periodEndSec : Int)
    (planType : PlanType) : PeriodResult :=
  let startMs : Int := periodStartSec * 1000
  let endMs : Int := periodEndSec * 1000
  let durationDays : Int := ⌈((endMs - startMs : Int) : ℚ) / (86400000 : ℚ)⌉
  let isAccurate : Bool :=
    match planType with
    | .monthly => decide (28 ≤ durationDays ∧ durationDays ≤ 31)
    | .semiannual => decide (180 ≤ durationDays ∧ durationDays ≤ 186)
    | .annual => decide (360 ≤ durationDays ∧ durationDays ≤ 370)
    | .trial => decide (28 ≤ durationDays ∧ durationDays ≤ 32)
  { startMs := startMs, endMs := endMs,
    durationDays := durationDays, isAccurate := isAccurate }

end Billing

namespace Billing

/-- C7: over the rank order trial(0) < monthly(1) < semiannual(2) < annual(3),
for every pair of distinct plans, `isUpgrade` and `isDowngrade` are mutually
exclusive and exhaustive (no distinct pair is lateral), and
`hasIntervalChange` holds exactly when one and only one side is monthly, or
the unordered pair is semiannual/annual. -/
theorem plan_resolver_classification (cur new : PlanType) (hne : cur ≠ new) :
    (¬(isUpgrade cur new = true ∧ isDowngrade cur new = true)) ∧
    (isUpgrade cur new = true ∨ isDowngrade cur new = true) ∧
    (hasIntervalChange cur new = true ↔
      ((cur = .monthly ∧ new ≠ .monthly) ∨ (cur ≠ .monthly ∧ new = .monthly)) ∨
      ((cur = .semiannual ∧ new = .annual) ∨ (cur = .annual ∧ new = .semiannual))) := by
  revert hne
  revert cur new
  decide

/-- Witness for `plan_resolver_classification` at the pair
(monthly, annual): an upgrade, not a downgrade, with an interval change. -/
theorem plan_resolver_classification_witness :
    (¬(isUpgrade .monthly .annual = true ∧ isDowngrade .monthly .annual = true)) ∧
    (isUpgrade .monthly .annual = true ∨ isDowngrade .monthly .annual = true) ∧
    (hasIntervalChange .monthly .annual = true ↔
      ((PlanType.monthly = .monthly ∧ PlanType.annual ≠ .monthly) ∨
        (PlanType.monthly ≠ .monthly ∧ PlanType.annual = .monthly)) ∨
      ((PlanType.monthly = .semiannual ∧ PlanType.annual = .annual) ∨
        (PlanType.monthly = .annual ∧ PlanType.annual = .semiannual))) :=
  plan_resolver_classification .monthly .annual (by decide)

/-- C8: `calculatePeriodFromStripe` returns the remote period bounds
unmodified (seconds scaled to milliseconds), computes the duration in whole
days by ceiling, and sets `isAccurate` to band membership per plan type
(monthly 28–31, semiannual 180–186, annual 360–370, trial 28–32); an
out-of-band duration only clears the flag, the period is still returned.
In particular, for monthly with end = start + 30 days the flag is true, and
with end = start + 15 days it is false with the bounds returned as-is. -/
theorem period_from_remote_spec :
    (∀ s e : Int, ∀ pt : PlanType,
      (calculatePeriodFromStripe s e pt).startMs = s * 1000 ∧
      (calculatePeriodFromStripe s e pt).endMs = e * 1000 ∧
      (calculatePeriodFromStripe s e pt).durationDays =
        ⌈(((e - s) * 1000 : Int) : ℚ) / (86400000 : ℚ)⌉ ∧
      ((calculatePeriodFromStripe s e pt).isAccurate = true ↔
        match pt with
        | .monthly => 28 ≤ (calculatePeriodFromStripe s e pt).durationDays ∧
            (calculatePeriodFromStripe s e pt).durationDays ≤ 31
        | .semiannual => 180 ≤ (calculatePeriodFromStripe s e pt).durationDays ∧
            (calculatePeriodFromStripe s e pt).durationDays ≤ 186
        | .annual => 360 ≤ (calculatePeriodFromStripe s e pt).durationDays ∧
            (calculatePeriodFromStripe s e pt).durationDays ≤ 370
        | .trial => 28 ≤ (calculatePeriodFromStripe s e pt).durationDays ∧
            (calculatePeriodFromStripe s e pt).durationDays ≤ 32)) ∧
    calculatePeriodFromStripe 1700000000 (1700000000 + 30 * 86400) .monthly =
      { startMs := 1700000000000, endMs := 1700000000000 + 30 * 86400000,
        durationDays := 30, isAccurate := true } ∧
    calculatePeriodFromStripe 1700000000 (1700000000 + 15 * 86400) .monthly =
      { startMs := 1700000000000, endMs := 1700000000000 + 15 * 86400000,
        durationDays := 15, isAccurate := false } := by
  refine ⟨fun s e pt => ⟨rfl, rfl, ?_, ?_⟩, ?_, ?_⟩
  · simp only [calculatePeriodFromStripe]
    ring_nf
  · cases pt <;> simp [calculatePeriodFromStripe]
  · simp only [calculatePeriodFromStripe, PeriodResult.mk.injEq]
    norm_num
  · simp only [calculatePeriodFromStripe, PeriodResult.mk.injEq]
    norm_num

end Billing

namespace Billing

/-- The `pending_plan_change` JSONB structure documented by the migration:
`{ plan_type: string, price_id: string, requested_at: timestamp }`. -/
structure PendingPlanChange where
  plan_type : PlanType
  price_id : String
  requested_at : Int
  deriving DecidableEq, Repr

/-- A local `subscriptions` row.  Timestamps are milliseconds (the source
stores ISO strings obtained from `new Date(seconds * 1000)`). -/
structure SubRow where
  rowId : Nat
  user_id : String
  plan_type : PlanType
  status : String
  stripe_customer_id : Option String
  stripe_subscription_id : Option String
  current_period_start : Int
  current_period_end : Int
  cancel_at_period_end : Bool
  card_fingerprint : Option String
  pending_plan_change : Option PendingPlanChange
  deriving DecidableEq, Repr

/-- A partial-column UPDATE (or INSERT payload) against the subscriptions
table: `none` means the column is absent from the update object.  The
fields are exactly the columns some handler in the source ever sets. -/
structure DbUpdate where
  user_id : Option String := none
  plan_type : Option PlanType := none
  status : Option String := none
  stripe_subscription_id : Option String := none
  stripe_customer_id : Option String := none
  current_period_start : Option Int := none
  current_period_end : Option Int := none
  cancel_at_period_end : Option Bool := none
  card_fingerprint : Option String := none
  pending_plan_change : Option PendingPlanChange := none
  scheduled_payment_method_id : Option String := none
  deriving DecidableEq, Repr

/-- Apply a partial update to a row: absent columns keep their value. -/
def applyDbUpdate (row : SubRow) (u : DbUpdate) : SubRow :=
  { rowId := row.rowId
    user_id := u.user_id.getD row.user_id
    plan_type := u.plan_type.getD row.plan_type
    status := u.status.getD row.status
    stripe_customer_id :=
      match u.stripe_customer_id with
      | some c => some c
      | none => row.stripe_customer_id
    stripe_subscription_id :=
      match u.stripe_subscription_id with
      | some s => some s
      | none => row.stripe_subscription_id
    current_period_start := u.current_period_start.getD row.current_period_start
    current_period_end := u.current_period_end.getD row.current_period_end
    cancel_at_period_end := u.cancel_at_period_end.getD row.cancel_at_period_end
    card_fingerprint :=
      match u.card_fingerprint with
      | some f => some f
      | none => row.card_fingerprint
    pending_plan_change :=
      match u.pending_plan_change with
      | some p => some p
      | none => row.pending_plan_change }

/-- A write issued against the subscriptions table. -/
inductive DbWriteOp where
  | updateRow (rowId : Nat) (u : DbUpdate)
  | insertRow (u : DbUpdate)
  deriving DecidableEq, Repr

/-- The fields of a remote (Stripe) subscription object that the handlers
read.  Period bounds are Unix seconds, as on the provider side. -/
structure StripeSub where
  id : String
  status : String
  current_period_start : Int
  current_period_end : Int
  cancel_at_period_end : Bool
  itemId : String
  deriving DecidableEq, Repr

/-- A `trial_end` argument: the literal string now, or a Unix-seconds
timestamp. -/
inductive StripeTrialEnd where
  | nowLiteral
  | timestamp (t : Int)
  deriving DecidableEq, Repr

/-- A subscription-update request sent to the provider; `none` marks keys
absent from the params object. -/
structure UpdateParams where
  itemId : Option String := none
  price : Option String := none
  metadataPlan : Option PlanType := none
  metadataIsTrial : Option Bool := none
  trialEnd : Option StripeTrialEnd := none
  prorationBehavior : Option String := none
  billingCycleAnchor : Option String := none
  cancelAtPeriodEnd : Option Bool := none
  defaultPaymentMethod : Option String := none
  deriving DecidableEq, Repr

/-- A subscription-create request sent to the provider. -/
structure CreateParams where
  customer : Option String
  price : String
  defaultPaymentMethod : Option String := none
  trialPeriodDays : Option Nat := none
  trialEnd : Option StripeTrialEnd := none
  cancelAtPeriodEnd : Option Bool := none
  metadataPlan : PlanType
  metadataIsTrial : Option Bool := none
  deriving DecidableEq, Repr

/-- The observable run of one handler invocation: the provider mutations it
issued (in order, including ones that then failed), the local database
writes it performed, and its JSON result (`Except.error` is the handler's
catch-all 400 response carrying the thrown message). -/
structure Run (α : Type) where
  updateCalls : List UpdateParams
  createCalls : List CreateParams
  dbWrites : List DbWriteOp
  result : Except String α

/-- A run that threw before any provider mutation or local write. -/
def failRun {α : Type} (msg : String) : Run α :=
  { updateCalls := [], createCalls := [], dbWrites := [], result := .error msg }

/-- Outcome of `paymentMethods.attach` + `customers.update`:
`alreadyAttached` stands for an error whose message contains the word
attached, which the source swallows; `fatal` is any other error, which it
rethrows. -/
inductive AttachOutcome where
  | ok
  | alreadyAttached
  | fatal (msg : String)
  deriving DecidableEq, Repr

/-- The attach step: returns the rethrown message, if any.  No payment
method supplied means the step is skipped. -/
def attachStep (paymentMethodId : Option String) (outcome : AttachOutcome) :
    Option String :=
  match paymentMethodId with
  | none => none
  | some _ =>
    match outcome with
    | .fatal m => some m
    | _ => none

end Billing

namespace Billing

/-- The JSON body of a successful change-plan response (the fields the
claims observe). -/
structure ChangePlanResponse where
  success : Bool
  requiresPayment : Bool
  clientSecret : Option String
  deriving DecidableEq, Repr

/-- Environment of one change-plan invocation: the request body, the local
row the user-scoped query returned, the provider's response to each call
the handler can make, and the wall clock (ms). -/
structure ChangePlanEnv where
  currentSub : Option SubRow
  newPlanType : PlanType
  newPriceId : String
  paymentMethodId : Option String
  attachOutcome : AttachOutcome
  retrieveResult : Option StripeSub
  updateResult : Except String StripeSub
  createResult : Except String StripeSub
  latestInvoiceSecret : Except String (Option String)
  now : Int
  deriving Repr

/-- The change-plan handler.  Mirrors the source: resolve the local row and
customer, attach the payment method (tolerating already-attached), retrieve
the remote subscription; a canceled-and-expired remote is replaced by a
freshly created subscription; otherwise the update strategy is chosen by
trial conversion / interval change / upgrade / downgrade, the remote update
is issued, and the local row is written back — omitting `plan_type` when the
change is a downgrade without interval change. -/
def changePlan (env : ChangePlanEnv) : Run ChangePlanResponse :=
  match env.currentSub with
  | none =>
    failRun "No subscription found. Please create a new subscription from the upgrade page."
  | some currentSub =>
  match currentSub.stripe_customer_id with
  | none => failRun "No Stripe customer found"
  | some stripeCustomerId =>
  match attachStep env.paymentMethodId env.attachOutcome with
  | some m => failRun m
  | none =>
  match currentSub.stripe_subscription_id with
  | none =>
    failRun "No active Stripe subscription found. Please purchase a new plan from the upgrade page."
  | some _ =>
  match env.retrieveResult with
  | none =>
    failRun "Stripe subscription not found. Please purchase a new plan from the upgrade page."
  | some stripeSubscription =>
  let stripeStatus := stripeSubscription.status
  let isCanceled := stripeStatus == "canceled"
  let isExpired := decide (stripeSubscription.current_period_end * 1000 ≤ env.now)
  let isCurrentlyTrial :=
    currentSub.plan_type == .trial || stripeStatus == "trialing"
  if isCanceled && isExpired then
    let createParams : CreateParams :=
      { customer := some stripeCustomerId
        price := env.newPriceId
        defaultPaymentMethod := env.paymentMethodId
        metadataPlan := env.newPlanType
        metadataIsTrial := some false }
    match env.createResult with
    | .error m =>
      { updateCalls := [], createCalls := [createParams], dbWrites := [],
        result := .error m }
    | .ok newSubscription =>
      let w : DbUpdate :=
        { plan_type := some env.newPlanType
          status := some newSubscription.status
          stripe_subscription_id := some newSubscription.id
          current_period_start := some (newSubscription.current_period_start * 1000)
          current_period_end := some (newSubscription.current_period_end * 1000)
          cancel_at_period_end := some false }
      let writes := [DbWriteOp.updateRow currentSub.rowId w]
      match env.latestInvoiceSecret with
      | .error m =>
        { updateCalls := [], createCalls := [createParams], dbWrites := writes,
          result := .error m }
      | .ok clientSecret =>
        { updateCalls := [], createCalls := [createParams], dbWrites := writes,
          result := .ok { success := true, requiresPayment := true,
                          clientSecret := clientSecret } }
  else
    let isUpgradeFlag := isUpgrade currentSub.plan_type env.newPlanType
    let hasIC := hasIntervalChange currentSub.plan_type env.newPlanType
    let base : UpdateParams :=
      { itemId := some stripeSubscription.itemId
        price := some env.newPriceId
        metadataPlan := some env.newPlanType
        metadataIsTrial := some false }
    let updateParams : UpdateParams :=
      if isCurrentlyTrial && env.newPlanType != .trial then
        { base with trialEnd := some .nowLiteral
                    prorationBehavior := some "create_prorations"
                    billingCycleAnchor := some "now" }
      else if hasIC then
        { base with prorationBehavior := some "create_prorations"
                    billingCycleAnchor := some "now" }
      else if isUpgradeFlag then
        { base with prorationBehavior := some "create_prorations"
                    billingCycleAnchor := some "unchanged" }
      else
        { base with prorationBehavior := some "none"
                    billingCycleAnchor := some "unchanged" }
    match env.updateResult with
    | .error m =>
      { updateCalls := [updateParams], createCalls := [], dbWrites := [],
        result := .error m }
    | .ok updatedSubscription =>
      let isDowngradeDeferred :=
        isDowngrade currentSub.plan_type env.newPlanType && !hasIC
      let dbUpdate : DbUpdate :=
        { plan_type := if isDowngradeDeferred then none else some env.newPlanType
          status := some updatedSubscription.status
          current_period_start := some (updatedSubscription.current_period_start * 1000)
          current_period_end := some (updatedSubscription.current_period_end * 1000)
          cancel_at_period_end := some false }
      let writes := [DbWriteOp.updateRow currentSub.rowId dbUpdate]
      if isCurrentlyTrial || isUpgradeFlag || hasIC then
        match env.latestInvoiceSecret with
        | .error m =>
          { updateCalls := [updateParams], createCalls := [], dbWrites := writes,
            result := .error m }
        | .ok (some clientSecret) =>
          { updateCalls := [updateParams], createCalls := [], dbWrites := writes,
            result := .ok { success := true, requiresPayment := true,
                            clientSecret := some clientSecret } }
        | .ok none =>
          { updateCalls := [updateParams], createCalls := [], dbWrites := writes,
            result := .ok { success := true, requiresPayment := false,
                            clientSecret := none } }
      else
        { updateCalls := [updateParams], createCalls := [], dbWrites := writes,
          result := .ok { success := true, requiresPayment := false,
                          clientSecret := none } }

end Billing

namespace Billing

/-- Successful create-payment response body. -/
structure PayResponse where
  clientSecret : Option String
  subscriptionId : String
  deriving DecidableEq, Repr

/-- Environment of one create-payment invocation. `pmFingerprint` is the
card fingerprint of the supplied payment method as returned by the
provider (`none` covers both a missing fingerprint and the swallowed
retrieve failure); `db` is the current contents of the subscriptions
table; `retrieveSub` is the provider's answer when the stored remote
subscription id is retrieved (`none` means the call threw). -/
structure PayEnv where
  userId : String
  planType : PlanType
  autoRenew : Bool
  paymentMethodId : Option String
  priceId : Option String
  isTrial : Bool
  pmFingerprint : Option String
  db : List SubRow
  createCustomerResult : Except String String
  attachOutcome : AttachOutcome
  retrieveSub : Option StripeSub
  updateResult : Except String StripeSub
  createResult : Except String StripeSub
  clientSecret : Option String
  deriving Repr

/-- The global fingerprint check: some other user already has a
subscription row carrying this card fingerprint. -/
def duplicateTrialGuard (db : List SubRow) (userId : String) (fp : String) : Bool :=
  db.any (fun r => r.card_fingerprint == some fp && r.user_id != userId)

/-- The message thrown by the duplicate-trial-card rejection. -/
def dupTrialMsg : String := "This card has already been used for a trial."

/-- Steps 2–4 of create-payment (everything after the fingerprint guard):
customer setup, payment-method attach, create-or-update against the
provider, and the single local upsert of the subscription row. -/
def createPaymentBody (env : PayEnv) (priceId : String)
    (cardFingerprint : Option String) : Run PayResponse :=
  let dbSub := env.db.find? (fun r => r.user_id == env.userId)
  let customerResolution : Except String String :=
    match dbSub with
    | some r =>
      match r.stripe_customer_id with
      | some c => .ok c
      | none => env.createCustomerResult
    | none => env.createCustomerResult
  match customerResolution with
  | .error m => failRun m
  | .ok stripeCustomerId =>
  match attachStep env.paymentMethodId env.attachOutcome with
  | some m => failRun m
  | none =>
  let liveStripeSub : Option StripeSub :=
    match dbSub with
    | none => none
    | some r =>
      match r.stripe_subscription_id with
      | none => none
      | some _ =>
        match env.retrieveSub with
        | none => none
        | some s => if s.status == "canceled" then none else some s
  let finalPlanType := if env.isTrial then PlanType.trial else env.planType
  match liveStripeSub with
  | some currentStripeSub =>
    let isSwitchingFromRealTrial :=
      match dbSub with
      | some r => r.plan_type == PlanType.trial
      | none => false
    let base : UpdateParams :=
      { itemId := some currentStripeSub.itemId
        price := some priceId
        cancelAtPeriodEnd := some (!env.autoRenew)
        metadataPlan := some finalPlanType
        metadataIsTrial := some env.isTrial }
    let updateParams : UpdateParams :=
      if isSwitchingFromRealTrial && !env.isTrial then
        { base with trialEnd := some .nowLiteral
                    prorationBehavior := some "create_prorations" }
      else
        { base with trialEnd := some (.timestamp currentStripeSub.current_period_end)
                    prorationBehavior := some "none" }
    match env.updateResult with
    | .error m =>
      { updateCalls := [updateParams], createCalls := [], dbWrites := [],
        result := .error m }
    | .ok subscription =>
      let subData : DbUpdate :=
        { user_id := some env.userId
          plan_type := some finalPlanType
          status := some subscription.status
          stripe_subscription_id := some subscription.id
          stripe_customer_id := some stripeCustomerId
          current_period_start := some (subscription.current_period_start * 1000)
          current_period_end := some (subscription.current_period_end * 1000)
          cancel_at_period_end := some subscription.cancel_at_period_end
          card_fingerprint := cardFingerprint }
      let write :=
        match dbSub with
        | some r => DbWriteOp.updateRow r.rowId subData
        | none => DbWriteOp.insertRow subData
      { updateCalls := [updateParams], createCalls := [], dbWrites := [write],
        result := .ok { clientSecret := env.clientSecret,
                        subscriptionId := subscription.id } }
  | none =>
    let createParams : CreateParams :=
      { customer := some stripeCustomerId
        price := priceId
        defaultPaymentMethod := env.paymentMethodId
        trialPeriodDays := if env.isTrial then some 30 else none
        cancelAtPeriodEnd := some (!env.isTrial && !env.autoRenew)
        metadataPlan := finalPlanType
        metadataIsTrial := some env.isTrial }
    match env.createResult with
    | .error m =>
      { updateCalls := [], createCalls := [createParams], dbWrites := [],
        result := .error m }
    | .ok subscription =>
      let subData : DbUpdate :=
        { user_id := some env.userId
          plan_type := some finalPlanType
          status := some subscription.status
          stripe_subscription_id := some subscription.id
          stripe_customer_id := some stripeCustomerId
          current_period_start := some (subscription.current_period_start * 1000)
          current_period_end := some (subscription.current_period_end * 1000)
          cancel_at_period_end := some subscription.cancel_at_period_end
          card_fingerprint := cardFingerprint }
      let write :=
        match dbSub with
        | some r => DbWriteOp.updateRow r.rowId subData
        | none => DbWriteOp.insertRow subData
      { updateCalls := [], createCalls := [createParams], dbWrites := [write],
        result := .ok { clientSecret := env.clientSecret,
                        subscriptionId := subscription.id } }

/-- The create-payment handler: required price id, then the trial
fingerprint guard, then `createPaymentBody`. -/
def createPayment (env : PayEnv) : Run PayResponse :=
  match env.priceId with
  | none => failRun "Missing Price ID."
  | some priceId =>
    let cardFingerprint : Option String :=
      match env.paymentMethodId with
      | some _ => env.pmFingerprint
      | none => none
    if env.isTrial then
      match cardFingerprint with
      | some f =>
        if duplicateTrialGuard env.db env.userId f then failRun dupTrialMsg
        else createPaymentBody env priceId cardFingerprint
      | none => createPaymentBody env priceId cardFingerprint
    else createPaymentBody env priceId cardFingerprint

/-- Environment of one cancel-subscription invocation. -/
structure CancelEnv where
  currentSub : Option SubRow
  updateResult : Except String Unit
  deriving Repr

/-- The cancel-subscription handler: sets `cancel_at_period_end` remotely,
then mirrors it locally with status cancelled (double-l). -/
def cancelSubscription (env : CancelEnv) : Run Unit :=
  match env.currentSub with
  | none => failRun "Subscription not found"
  | some currentSub =>
  match currentSub.stripe_subscription_id with
  | none => failRun "No Stripe subscription found"
  | some _ =>
    let params : UpdateParams := { cancelAtPeriodEnd := some true }
    match env.updateResult with
    | .error m =>
      { updateCalls := [params], createCalls := [], dbWrites := [],
        result := .error m }
    | .ok _ =>
      { updateCalls := [params], createCalls := [],
        dbWrites := [DbWriteOp.updateRow currentSub.rowId
          { cancel_at_period_end := some true, status := some "cancelled" }],
        result := .ok () }

/-- Environment of one reactivate-subscription invocation. -/
structure ReactivateEnv where
  currentSub : Option SubRow
  paymentMethodId : Option String
  priceId : String
  retrieveResult : Option StripeSub
  updateResult : Except String Unit
  createResult : Except String StripeSub
  now : Int
  deriving Repr

/-- The reactivate-subscription handler: rejects when the stored period end
has passed; resumes auto-renewal when the remote subscription is still
active or trialing; when the remote subscription is fully canceled, creates
a new remote subscription whose trial end restores the remaining paid-for
time (when at least one whole second remains) and points the local row at
the new subscription id; any other remote status is terminal. -/
def reactivateSubscription (env : ReactivateEnv) : Run Unit :=
  match env.currentSub with
  | none => failRun "Subscription not found"
  | some currentSub =>
  if currentSub.current_period_end ≤ env.now then
    failRun "Subscription has expired. Please purchase a new plan from the upgrade page."
  else
  match currentSub.stripe_subscription_id with
  | none =>
    failRun "No Stripe subscription found. Please purchase a new plan from the upgrade page."
  | some _ =>
  match env.retrieveResult with
  | none =>
    failRun "Subscription not found in Stripe. Please purchase a new plan from the upgrade page."
  | some stripeSubscription =>
  let stripeStatus := stripeSubscription.status
  if stripeStatus == "active" || stripeStatus == "trialing" then
    let params : UpdateParams :=
      { cancelAtPeriodEnd := some false
        defaultPaymentMethod := env.paymentMethodId }
    match env.updateResult with
    | .error m =>
      { updateCalls := [params], createCalls := [], dbWrites := [],
        result := .error m }
    | .ok _ =>
      { updateCalls := [params], createCalls := [],
        dbWrites := [DbWriteOp.updateRow currentSub.rowId
          { status := some "active", cancel_at_period_end := some false }],
        result := .ok () }
  else if stripeStatus == "canceled" then
    let remainingSeconds :=
      Int.fdiv (currentSub.current_period_end - env.now) 1000
    let trialEnd : Option StripeTrialEnd :=
      if remainingSeconds > 0 then
        some (.timestamp (Int.fdiv currentSub.current_period_end 1000))
      else none
    let createParams : CreateParams :=
      { customer := currentSub.stripe_customer_id
        price := env.priceId
        defaultPaymentMethod := env.paymentMethodId
        trialEnd := trialEnd
        metadataPlan := currentSub.plan_type
        metadataIsTrial := some (currentSub.plan_type == PlanType.trial) }
    match env.createResult with
    | .error m =>
      { updateCalls := [], createCalls := [createParams], dbWrites := [],
        result := .error m }
    | .ok newSubscription =>
      { updateCalls := [], createCalls := [createParams],
        dbWrites := [DbWriteOp.updateRow currentSub.rowId
          { status := some "active"
            stripe_subscription_id := some newSubscription.id
            cancel_at_period_end := some false
            current_period_start := some (newSubscription.current_period_start * 1000)
            current_period_end := some (newSubscription.current_period_end * 1000) }],
        result := .ok () }
  else
    failRun "Cannot reactivate subscription in current state. Please purchase a new plan from the upgrade page."

end Billing

namespace Billing

/-- The webhook handler's remote-status → local-status mapping:
active/trialing → active; past_due kept; canceled/cancelled → canceled;
unpaid/incomplete/incomplete_expired passed through; anything else
defaults to active. -/
def mapRemoteStatus (s : String) : String :=
  if s == "active" || s == "trialing" then "active"
  else if s == "past_due" then "past_due"
  else if s == "canceled" || s == "cancelled" then "canceled"
  else if s == "unpaid" || s == "incomplete" || s == "incomplete_expired" then s
  else "active"

/-- The parameter record the webhook handler passes to the database
function (period bounds already converted to milliseconds). -/
structure WebhookRpcParams where
  user_id : String
  plan_type : PlanType
  status : String
  stripe_subscription_id : String
  stripe_customer_id : String
  period_start : Int
  period_end : Int
  deriving DecidableEq, Repr

/-- Modelled from the spec: the SQL body of the database function
`handle_subscription_webhook` is not part of the source tree (only its
callers are).  Per the spec, the webhook upsert is keyed by the remote
subscription id, must be safe to replay, and must not regress the effect of
a later-arriving event when an earlier-period event is delivered after it —
period comparisons use the remote object's own timestamps.  Accordingly, an
incoming event for the same remote subscription id whose period end is
strictly earlier than the stored one is ignored; otherwise all carried
fields are upserted. -/
def handle_subscription_webhook (row : SubRow) (p : WebhookRpcParams) : SubRow :=
  if row.stripe_subscription_id = some p.stripe_subscription_id ∧
      p.period_end < row.current_period_end then
    row
  else
    { row with
      plan_type := p.plan_type
      status := p.status
      stripe_subscription_id := some p.stripe_subscription_id
      stripe_customer_id := some p.stripe_customer_id
      current_period_start := p.period_start
      current_period_end := p.period_end }

/-- A `customer.subscription.updated` event payload (the fields the handler
reads; period bounds in Unix seconds). -/
structure SubscriptionEvent where
  id : String
  customer : String
  status : String
  current_period_start : Int
  current_period_end : Int
  metadata_user_id : Option String
  metadata_plan_type : Option PlanType
  deriving DecidableEq, Repr

/-- The `handleSubscriptionUpdated` webhook branch: a missing user id in
the metadata is acknowledged as a no-op; otherwise the remote status is
mapped, the period derived by `calculatePeriodFromStripe`, and the
database function invoked. -/
def handleSubscriptionUpdated (row : SubRow) (ev : SubscriptionEvent) : SubRow :=
  match ev.metadata_user_id with
  | none => row
  | some uid =>
    let planType := ev.metadata_plan_type.getD .monthly
    let status := mapRemoteStatus ev.status
    let period :=
      calculatePeriodFromStripe ev.current_period_start ev.current_period_end planType
    handle_subscription_webhook row
      { user_id := uid
        plan_type := planType
        status := status
        stripe_subscription_id := ev.id
        stripe_customer_id := ev.customer
        period_start := period.startMs
        period_end := period.endMs }

/-- A remote invoice payload (the fields `persistInvoiceToDatabase` reads;
`none` is a missing/null field). -/
structure InvoicePayload where
  id : String
  total : Option Int
  amount_paid : Option Int
  amount_due : Option Int
  subtotal : Option Int
  tax : Option Int
  discountAmount : Option Int
  totalDiscountAmounts : Option (List Int)
  currency : Option String
  status : Option String
  linePeriodStart : Option Int
  linePeriodEnd : Option Int
  period_start : Option Int
  period_end : Option Int
  deriving DecidableEq, Repr

/-- A local `invoices` row (the columns the claims observe; monetary
amounts are integer minor units, periods milliseconds). -/
structure InvoiceRow where
  stripe_invoice_id : String
  user_id : String
  total : Int
  subtotal : Int
  tax : Int
  discount : Int
  currency : String
  status : String
  period_start : Option Int
  period_end : Option Int
  deriving DecidableEq, Repr

/-- JavaScript `a || b` over numeric options: `0` is falsy. -/
def jsNumOr (a b : Option Int) : Option Int :=
  match a with
  | some v => if v == 0 then b else some v
  | none => b

/-- Builds the invoice row exactly as the source does: amounts kept as the
integers received (`total ?? amount_paid ?? amount_due ?? 0`,
`subtotal ?? total`, `tax ?? 0`, `discount?.amount ??
sum(total_discount_amounts) ?? 0`), and the line-item service period
preferred over the invoice-level period. -/
def buildInvoiceRow (userId : String) (inv : InvoicePayload) : InvoiceRow :=
  let total := ((inv.total.orElse fun _ => inv.amount_paid).orElse
    fun _ => inv.amount_due).getD 0
  let subtotal := inv.subtotal.getD total
  let tax := inv.tax.getD 0
  let discount := (inv.discountAmount.orElse
    fun _ => inv.totalDiscountAmounts.map List.sum).getD 0
  let periodStartRaw := jsNumOr inv.linePeriodStart inv.period_start
  let periodEndRaw := jsNumOr inv.linePeriodEnd inv.period_end
  { stripe_invoice_id := inv.id
    user_id := userId
    total := total
    subtotal := subtotal
    tax := tax
    discount := discount
    currency := inv.currency.getD "usd"
    status := inv.status.getD "unknown"
    period_start := periodStartRaw.map (· * 1000)
    period_end := periodEndRaw.map (· * 1000) }

/-- The upsert with `onConflict` on `stripe_invoice_id`: replace the
conflicting row(s) in place, or append when the key is new. -/
def upsertInvoice (db : List InvoiceRow) (row : InvoiceRow) : List InvoiceRow :=
  if db.any (fun r => r.stripe_invoice_id == row.stripe_invoice_id) then
    db.map (fun r => if r.stripe_invoice_id == row.stripe_invoice_id then row else r)
  else
    db ++ [row]

/-- `persistInvoiceToDatabase`: build the row for the resolved user and
upsert it keyed by the remote invoice id. -/
def persistInvoiceToDatabase (db : List InvoiceRow) (userId : String)
    (inv : InvoicePayload) : List InvoiceRow :=
  upsertInvoice db (buildInvoiceRow userId inv)

/-- `getPlanDisplayName` from the billing page: appends a Cancelled suffix
only when the status equals the single-l spelling canceled. -/
def getPlanDisplayName (planType status : String) : String :=
  if planType == "trial" then
    if status == "canceled" then "Trial (Cancelled)" else "Trial"
  else
    let baseName :=
      if planType == "monthly" then "Monthly Plan"
      else if planType == "semiannual" then "6-Month Plan"
      else if planType == "annual" then "Annual Plan"
      else "Standard Plan"
    if status == "canceled" then baseName ++ " (Cancelled)" else baseName

end Billing

namespace Billing

/-- A live annual subscription whose user requests a downgrade without an
interval change. -/
def c1Row : SubRow :=
  { rowId := 1, user_id := "u1", plan_type := .annual, status := "active",
    stripe_customer_id := some "cus_1", stripe_subscription_id := some "sub_1",
    current_period_start := 1700000000000, current_period_end := 1731536000000,
    cancel_at_period_end := false, card_fingerprint := none,
    pending_plan_change := none }

/-- The live remote subscription object backing `c1Row`. -/
def c1Remote : StripeSub :=
  { id := "sub_1", status := "active", current_period_start := 1700000000,
    current_period_end := 1731536000, cancel_at_period_end := false,
    itemId := "si_1" }

/-- Change-plan invocation for `c1Row`: target plan ranks below annual with
no interval change, the remote subscription is live, the remote update
succeeds. -/
def c1Env : ChangePlanEnv :=
  { currentSub := some c1Row, newPlanType := .trial, newPriceId := "price_t",
    paymentMethodId := none, attachOutcome := .ok,
    retrieveResult := some c1Remote,
    updateResult := .ok c1Remote,
    createResult := .error "unused", latestInvoiceSecret := .ok none,
    now := 1710000000000 }

/-- C1: on a downgrade without interval change while the row is active, the
write-back indeed omits `plan_type` (the deferral half of the claim holds),
but the handler leaves `pending_plan_change` untouched: no write anywhere
in the source populates the marker the migration documents, so the row
still carries no pending-change record after the handler returns. -/
theorem change_plan_downgrade_writes_no_pending_change :
    ∃ u : DbUpdate,
      (changePlan c1Env).dbWrites = [DbWriteOp.updateRow 1 u] ∧
      u.plan_type = none ∧
      u.pending_plan_change = none ∧
      (applyDbUpdate c1Row u).plan_type = PlanType.annual ∧
      (applyDbUpdate c1Row u).pending_plan_change = none ∧
      (changePlan c1Env).result =
        .ok { success := true, requiresPayment := false, clientSecret := none } :=
  ⟨{ plan_type := none, status := some "active",
     current_period_start := some 1700000000000,
     current_period_end := some 1731536000000,
     cancel_at_period_end := some false },
   rfl, rfl, rfl, rfl, rfl, rfl⟩

end Billing

namespace Billing

/-- C2 (amended): when the remote subscription is fully canceled and the
stored `current_period_end` lies at least one whole second in the future,
reactivation creates one new remote subscription whose `trial_end` is the
stored period end converted to seconds, and the single local write makes
the row adopt the new remote subscription id while leaving `plan_type`
untouched; no remote update call (hence no immediate charge for the
already-paid period) is issued. -/
theorem reactivate_canceled_recreates_with_trial_end
    (env : ReactivateEnv) (row : SubRow) (ss ns : StripeSub)
    (hrow : env.currentSub = some row)
    (hsid : row.stripe_subscription_id.isSome = true)
    (hret : env.retrieveResult = some ss)
    (hst : ss.status = "canceled")
    (hfut : env.now + 1000 ≤ row.current_period_end)
    (hcreate : env.createResult = .ok ns) :
    ∃ p u,
      (reactivateSubscription env).createCalls = [p] ∧
      p.trialEnd = some (.timestamp (Int.fdiv row.current_period_end 1000)) ∧
      p.metadataPlan = row.plan_type ∧
      (reactivateSubscription env).dbWrites = [DbWriteOp.updateRow row.rowId u] ∧
      u.stripe_subscription_id = some ns.id ∧
      u.plan_type = none ∧
      (applyDbUpdate row u).plan_type = row.plan_type ∧
      (applyDbUpdate row u).stripe_subscription_id = some ns.id ∧
      (reactivateSubscription env).updateCalls = [] ∧
      (reactivateSubscription env).result = .ok () := by
  obtain ⟨sid, hsid2⟩ := Option.isSome_iff_exists.mp hsid
  have hne : ¬(row.current_period_end ≤ env.now) := by omega
  have hpos : 0 < Int.fdiv (row.current_period_end - env.now) 1000 := by
    rw [Int.fdiv_eq_ediv _ (by omega)]
    omega
  unfold reactivateSubscription
  rw [hrow]
  simp only [hsid2, hret, hst, if_neg hne]
  rw [show (("canceled" : String) == "active" || ("canceled" : String) == "trialing")
      = false from rfl]
  rw [show (("canceled" : String) == "canceled") = true from rfl]
  simp only [Bool.false_eq_true, if_false, if_true, if_pos hpos, hcreate]
  refine ⟨{ customer := row.stripe_customer_id, price := env.priceId,
            defaultPaymentMethod := env.paymentMethodId, trialPeriodDays := none,
            trialEnd := some (StripeTrialEnd.timestamp (row.current_period_end.fdiv 1000)),
            cancelAtPeriodEnd := none, metadataPlan := row.plan_type,
            metadataIsTrial := some (row.plan_type == PlanType.trial) },
          { status := some "active", stripe_subscription_id := some ns.id,
            current_period_start := some (ns.current_period_start * 1000),
            current_period_end := some (ns.current_period_end * 1000),
            cancel_at_period_end := some false },
          ?_, ?_, ?_, ?_, ?_, ?_, ?_, ?_, ?_, ?_⟩ <;> first | rfl | trivial

end Billing

namespace Billing

/-- A canceled monthly subscription with paid-for time remaining. -/
def c2Row : SubRow :=
  { rowId := 7, user_id := "u7", plan_type := .monthly, status := "canceled",
    stripe_customer_id := some "cus_7", stripe_subscription_id := some "sub_7",
    current_period_start := 1700000000000, current_period_end := 1702592000000,
    cancel_at_period_end := true, card_fingerprint := none,
    pending_plan_change := none }

/-- The fully canceled remote subscription backing `c2Row`. -/
def c2Remote : StripeSub :=
  { id := "sub_7", status := "canceled", current_period_start := 1700000000,
    current_period_end := 1702592000, cancel_at_period_end := true,
    itemId := "si_7" }

/-- The freshly created remote subscription the provider returns. -/
def c2NewSub : StripeSub :=
  { id := "sub_8", status := "trialing", current_period_start := 1701000000,
    current_period_end := 1702592000, cancel_at_period_end := false,
    itemId := "si_8" }

/-- Reactivation of `c2Row` with 1592 seconds of paid-for time left. -/
def c2Env : ReactivateEnv :=
  { currentSub := some c2Row, paymentMethodId := some "pm_7",
    priceId := "price_m", retrieveResult := some c2Remote,
    updateResult := .error "unused", createResult := .ok c2NewSub,
    now := 1701000000000 }

/-- Witness for `reactivate_canceled_recreates_with_trial_end` at `c2Env`. -/
theorem reactivate_canceled_recreates_with_trial_end_witness :
    ∃ p u,
      (reactivateSubscription c2Env).createCalls = [p] ∧
      p.trialEnd = some (.timestamp (Int.fdiv c2Row.current_period_end 1000)) ∧
      p.metadataPlan = c2Row.plan_type ∧
      (reactivateSubscription c2Env).dbWrites = [DbWriteOp.updateRow c2Row.rowId u] ∧
      u.stripe_subscription_id = some c2NewSub.id ∧
      u.plan_type = none ∧
      (applyDbUpdate c2Row u).plan_type = c2Row.plan_type ∧
      (applyDbUpdate c2Row u).stripe_subscription_id = some c2NewSub.id ∧
      (reactivateSubscription c2Env).updateCalls = [] ∧
      (reactivateSubscription c2Env).result = .ok () :=
  reactivate_canceled_recreates_with_trial_end c2Env c2Row c2Remote c2NewSub
    rfl rfl rfl rfl (by norm_num [c2Env, c2Row]) rfl

/-- Reactivation of `c2Row` half a second before the stored period end:
the stored `current_period_end` is still strictly in the future. -/
def c2BoundaryEnv : ReactivateEnv :=
  { currentSub := some c2Row, paymentMethodId := some "pm_7",
    priceId := "price_m", retrieveResult := some c2Remote,
    updateResult := .error "unused", createResult := .ok c2NewSub,
    now := 1702591999500 }

/-- C2 counterexample: with the remote subscription fully canceled and the
stored period end 500 ms in the future, the handler creates the new remote
subscription with no `trial_end` at all (billing starts immediately), not
with `trial_end` equal to the stored period end as the claim states. -/
theorem reactivate_trial_end_boundary_counterexample :
    c2BoundaryEnv.now < c2Row.current_period_end ∧
    c2BoundaryEnv.retrieveResult = some c2Remote ∧
    c2Remote.status = "canceled" ∧
    (reactivateSubscription c2BoundaryEnv).createCalls.length = 1 ∧
    ∀ p ∈ (reactivateSubscription c2BoundaryEnv).createCalls,
      p.trialEnd = none ∧
      p.trialEnd ≠ some (.timestamp (Int.fdiv c2Row.current_period_end 1000)) := by
  decide

end Billing

namespace Billing

/-- A live annual subscription almost a year from its period end. -/
def c3Row : SubRow :=
  { rowId := 2, user_id := "u3", plan_type := .annual, status := "active",
    stripe_customer_id := some "cus_3", stripe_subscription_id := some "sub_3",
    current_period_start := 1700000000000, current_period_end := 1760000000000,
    cancel_at_period_end := false, card_fingerprint := none,
    pending_plan_change := none }

/-- The remote subscription before the plan change. -/
def c3Remote : StripeSub :=
  { id := "sub_3", status := "active", current_period_start := 1700000000,
    current_period_end := 1760000000, cancel_at_period_end := false,
    itemId := "si_3" }

/-- The same remote subscription after an annual-to-monthly interval change
with the billing-cycle anchor reset to now: the id is unchanged, the new
period runs for one month from now. -/
def c3RemoteAfter : StripeSub :=
  { id := "sub_3", status := "active", current_period_start := 1730000000,
    current_period_end := 1732592000, cancel_at_period_end := false,
    itemId := "si_3" }

/-- Change-plan invocation switching `c3Row` from annual to monthly. -/
def c3Env : ChangePlanEnv :=
  { currentSub := some c3Row, newPlanType := .monthly, newPriceId := "price_m",
    paymentMethodId := none, attachOutcome := .ok,
    retrieveResult := some c3Remote,
    updateResult := .ok c3RemoteAfter,
    createResult := .error "unused",
    latestInvoiceSecret := .ok (some "sec_3"),
    now := 1730000000000 }

/-- C3 counterexample: the annual-to-monthly plan change keeps the remote
subscription id but starts a fresh one-month billing cycle, so the
handler's write-back moves the stored `current_period_end` strictly
backwards for the same remote subscription id — the claimed monotonicity
fails outside the brand-new-id exception. -/
theorem change_plan_period_end_regression_counterexample :
    ∃ u,
      (changePlan c3Env).dbWrites = [DbWriteOp.updateRow 2 u] ∧
      (applyDbUpdate c3Row u).stripe_subscription_id =
        c3Row.stripe_subscription_id ∧
      (applyDbUpdate c3Row u).current_period_end < c3Row.current_period_end ∧
      (changePlan c3Env).result =
        .ok { success := true, requiresPayment := true,
              clientSecret := some "sec_3" } := by
  refine ⟨{ plan_type := some .monthly, status := some "active",
            current_period_start := some 1730000000000,
            current_period_end := some 1732592000000,
            cancel_at_period_end := some false }, rfl, rfl, ?_, rfl⟩
  decide

/-- One webhook upsert never lowers the stored period end of a row holding
the same remote subscription id, and leaves the row on that id. -/
lemma rpc_period_end_step (row : SubRow) (p : WebhookRpcParams)
    (h : row.stripe_subscription_id = some p.stripe_subscription_id) :
    row.current_period_end ≤
      (handle_subscription_webhook row p).current_period_end ∧
    (handle_subscription_webhook row p).stripe_subscription_id =
      some p.stripe_subscription_id := by
  unfold handle_subscription_webhook
  by_cases hc : row.stripe_subscription_id = some p.stripe_subscription_id ∧
      p.period_end < row.current_period_end
  · rw [if_pos hc]
    exact ⟨le_refl _, h⟩
  · rw [if_neg hc]
    have hge : ¬(p.period_end < row.current_period_end) :=
      fun hlt => hc ⟨h, hlt⟩
    exact ⟨le_of_not_lt hge, rfl⟩

lemma handleSubscriptionUpdated_period_end_step (row : SubRow)
    (ev : SubscriptionEvent) (h : row.stripe_subscription_id = some ev.id) :
    row.current_period_end ≤
      (handleSubscriptionUpdated row ev).current_period_end ∧
    (handleSubscriptionUpdated row ev).stripe_subscription_id = some ev.id := by
  unfold handleSubscriptionUpdated
  cases hm : ev.metadata_user_id with
  | none => exact ⟨le_refl _, h⟩
  | some uid => exact rpc_period_end_step row _ h

/-- C3 (amended): webhook-sync writes never regress the stored
`current_period_end` for the same remote subscription id: folding any
sequence of subscription-updated events all carrying the row's remote id
over the webhook handler leaves the stored period end no smaller than it
started.  (User-initiated plan changes that reset the billing-cycle anchor
are a further exception to the original claim, as the counterexample
shows.) -/
theorem webhook_period_end_monotone
    (row : SubRow) (s : String) (evs : List SubscriptionEvent)
    (hid : row.stripe_subscription_id = some s)
    (hall : ∀ ev ∈ evs, ev.id = s) :
    row.current_period_end ≤
      (evs.foldl handleSubscriptionUpdated row).current_period_end := by
  induction evs generalizing row with
  | nil => simp
  | cons ev evs ih =>
    have hev : ev.id = s := hall ev (List.mem_cons_self ev evs)
    have hstep := handleSubscriptionUpdated_period_end_step row ev (hev ▸ hid)
    calc row.current_period_end
        ≤ (handleSubscriptionUpdated row ev).current_period_end := hstep.1
      _ ≤ _ := ih (handleSubscriptionUpdated row ev) (hev ▸ hstep.2)
        (fun e he => hall e (List.mem_cons_of_mem ev he))

/-- A subscription-updated event for remote subscription sub_3 covering a
fresh later period. -/
def c3Event1 : SubscriptionEvent :=
  { id := "sub_3", customer := "cus_3", status := "active",
    current_period_start := 1760000000, current_period_end := 1762592000,
    metadata_user_id := some "u3", metadata_plan_type := some .monthly }

/-- A stale replay of an earlier period of the same remote subscription. -/
def c3Event2 : SubscriptionEvent :=
  { id := "sub_3", customer := "cus_3", status := "active",
    current_period_start := 1700000000, current_period_end := 1702592000,
    metadata_user_id := some "u3", metadata_plan_type := some .annual }

/-- Witness for `webhook_period_end_monotone`: a later-period event followed
by a stale replay of an earlier period never lowers the stored period end. -/
theorem webhook_period_end_monotone_witness :
    c3Row.current_period_end ≤
      ([c3Event1, c3Event2].foldl handleSubscriptionUpdated c3Row).current_period_end :=
  webhook_period_end_monotone c3Row "sub_3" [c3Event1, c3Event2] rfl
    (by decide)

end Billing

namespace Billing

/-- A canceled subscription row with remaining paid-for time, about to be
reactivated. -/
def c10Row : SubRow :=
  { rowId := 4, user_id := "u4", plan_type := .monthly, status := "cancelled",
    stripe_customer_id := some "cus_4", stripe_subscription_id := some "sub_4",
    current_period_start := 1700000000000, current_period_end := 1702592000000,
    cancel_at_period_end := true, card_fingerprint := none,
    pending_plan_change := none }

/-- The fully canceled remote subscription backing `c10Row`. -/
def c10Remote : StripeSub :=
  { id := "sub_4", status := "canceled", current_period_start := 1700000000,
    current_period_end := 1702592000, cancel_at_period_end := true,
    itemId := "si_4" }

/-- The freshly created remote subscription returned on recreation. -/
def c10NewSub : StripeSub :=
  { id := "sub_5", status := "active", current_period_start := 1701000000,
    current_period_end := 1702592000, cancel_at_period_end := false,
    itemId := "si_5" }

/-- Reactivation of `c10Row` against a fully canceled remote subscription
(the recreation path). -/
def c10Env : ReactivateEnv :=
  { currentSub := some c10Row, paymentMethodId := some "pm_4",
    priceId := "price_m",
    retrieveResult := some c10Remote,
    updateResult := .error "unused",
    createResult := .ok c10NewSub,
    now := 1701000000000 }

/-- C10 counterexample: the reactivation/recreation path does not write the
single-l value canceled — its local write sets status to active. -/
theorem reactivate_writes_active_counterexample :
    ∃ u,
      (reactivateSubscription c10Env).dbWrites = [DbWriteOp.updateRow 4 u] ∧
      u.status = some "active" ∧
      u.status ≠ some "canceled" ∧
      u.status ≠ some "cancelled" := by
  refine ⟨{ status := some "active", stripe_subscription_id := some "sub_5",
            cancel_at_period_end := some false,
            current_period_start := some 1701000000000,
            current_period_end := some 1702592000000 }, ?_, rfl, ?_, ?_⟩ <;> decide

/-- C10 (amended): the cancel handler writes the double-l spelling
cancelled, webhook sync normalizes both remote spellings to the single-l
canceled, the reactivation paths write active — so both spellings of the
canceled state are reachable in the status column — and the plan display
logic compares only against the single-l spelling, so it does not match a
row last written by the cancel handler. -/
theorem status_spelling_divergence
    (env : CancelEnv) (row : SubRow)
    (hrow : env.currentSub = some row)
    (hsid : row.stripe_subscription_id.isSome = true)
    (hupd : env.updateResult = .ok ()) :
    (∃ u, (cancelSubscription env).dbWrites = [DbWriteOp.updateRow row.rowId u] ∧
      u.status = some "cancelled") ∧
    mapRemoteStatus "canceled" = "canceled" ∧
    mapRemoteStatus "cancelled" = "canceled" ∧
    getPlanDisplayName "monthly" "cancelled" = "Monthly Plan" ∧
    getPlanDisplayName "monthly" "canceled" = "Monthly Plan (Cancelled)" ∧
    ("cancelled" : String) ≠ "canceled" := by
  obtain ⟨sid, hsid2⟩ := Option.isSome_iff_exists.mp hsid
  refine ⟨⟨{ cancel_at_period_end := some true, status := some "cancelled" },
    ?_, rfl⟩, rfl, rfl, by decide, by decide, by decide⟩
  unfold cancelSubscription
  rw [hrow]
  simp only [hsid2, hupd]

/-- A cancel invocation used to witness `status_spelling_divergence`. -/
def c10CancelEnv : CancelEnv :=
  { currentSub := some c10Row, updateResult := .ok () }

/-- Witness for `status_spelling_divergence` at `c10CancelEnv`. -/
theorem status_spelling_divergence_witness :
    (∃ u, (cancelSubscription c10CancelEnv).dbWrites =
        [DbWriteOp.updateRow c10Row.rowId u] ∧
      u.status = some "cancelled") ∧
    mapRemoteStatus "canceled" = "canceled" ∧
    mapRemoteStatus "cancelled" = "canceled" ∧
    getPlanDisplayName "monthly" "cancelled" = "Monthly Plan" ∧
    getPlanDisplayName "monthly" "canceled" = "Monthly Plan (Cancelled)" ∧
    ("cancelled" : String) ≠ "canceled" :=
  status_spelling_divergence c10CancelEnv c10Row rfl rfl rfl

end Billing

namespace Billing

/-- Replacing every key-matching row of a list by `row` (itself carrying the
key) maps the key-filtered sublist to copies of `row`. -/
lemma filter_map_replace (key : String) (row : InvoiceRow)
    (hrow : row.stripe_invoice_id = key) (db : List InvoiceRow) :
    ((db.map (fun r => if r.stripe_invoice_id == key then row else r)).filter
      (fun r => r.stripe_invoice_id == key)) =
    (db.filter (fun r => r.stripe_invoice_id == key)).map (fun _ => row) := by
  induction db with
  | nil => simp
  | cons x xs ih =>
    cases hxb : x.stripe_invoice_id == key with
    | true =>
      have hfx : (if (x.stripe_invoice_id == key) = true then row else x) = row := by
        simp [hxb]
      have hrk : (row.stripe_invoice_id == key) = true := by
        simp [hrow]
      simp only [List.map_cons, List.filter_cons, hfx, hxb, hrk, if_true,
        List.map_cons]
      exact congrArg (row :: ·) ih
    | false =>
      have hfx : (if (x.stripe_invoice_id == key) = true then row else x) = x := by
        simp [hxb]
      simp only [List.map_cons, List.filter_cons, hfx, hxb, Bool.false_eq_true,
        if_false]
      exact ih

/-- The invoice upsert leaves exactly the inserted row under its key, given
the key was unique (or absent) beforehand. -/
lemma upsertInvoice_filter (db : List InvoiceRow) (row : InvoiceRow)
    (h : (db.filter
      (fun r => r.stripe_invoice_id == row.stripe_invoice_id)).length ≤ 1) :
    (upsertInvoice db row).filter
      (fun r => r.stripe_invoice_id == row.stripe_invoice_id) = [row] := by
  unfold upsertInvoice
  by_cases hany :
      db.any (fun r => r.stripe_invoice_id == row.stripe_invoice_id) = true
  · rw [if_pos hany]
    rw [filter_map_replace row.stripe_invoice_id row rfl db]
    obtain ⟨x, hmem, hx⟩ := List.any_eq_true.mp hany
    have hpos :
        0 < (db.filter
          (fun r => r.stripe_invoice_id == row.stripe_invoice_id)).length :=
      List.length_pos.mpr (List.ne_nil_of_mem (List.mem_filter.mpr ⟨hmem, hx⟩))
    have hone :
        (db.filter
          (fun r => r.stripe_invoice_id == row.stripe_invoice_id)).length = 1 := by
      omega
    obtain ⟨a, ha⟩ := List.length_eq_one.mp hone
    rw [ha]
    rfl
  · rw [if_neg hany]
    rw [List.filter_append]
    have hnil :
        db.filter (fun r => r.stripe_invoice_id == row.stripe_invoice_id) = [] := by
      refine List.filter_eq_nil_iff.mpr ?_
      intro a hmem
      have := List.any_eq_false.mp (Bool.not_eq_true _ ▸ hany) a hmem
      simp_all
    rw [hnil]
    simp

/-- C9: persisting the same remote invoice payload any number of times
leaves exactly one local invoice row under that remote invoice id (the
built row itself); a later delivery with the same id overwrites that row
rather than duplicating it; and the monetary `total` is stored as the
integer minor-unit value exactly as received — in particular a payload
with total 2999 persists as the integer 2999. -/
theorem invoice_persist_upsert_and_amount_fidelity
    (db : List InvoiceRow) (userId : String) (inv : InvoicePayload)
    (huniq : (db.filter (fun r => r.stripe_invoice_id == inv.id)).length ≤ 1) :
    (∀ n : Nat,
      (((fun d => persistInvoiceToDatabase d userId inv)^[n + 1] db).filter
        (fun r => r.stripe_invoice_id == inv.id)) = [buildInvoiceRow userId inv]) ∧
    (∀ (inv2 : InvoicePayload) (userId2 : String), inv2.id = inv.id →
      ((persistInvoiceToDatabase (persistInvoiceToDatabase db userId inv)
          userId2 inv2).filter
        (fun r => r.stripe_invoice_id == inv.id)) = [buildInvoiceRow userId2 inv2]) ∧
    (∀ t : Int, inv.total = some t → (buildInvoiceRow userId inv).total = t) ∧
    (inv.total = some 2999 → (buildInvoiceRow userId inv).total = 2999) := by
  have hkey : (buildInvoiceRow userId inv).stripe_invoice_id = inv.id := rfl
  have hone : ∀ d : List InvoiceRow,
      (d.filter (fun r => r.stripe_invoice_id == inv.id)).length ≤ 1 →
      ((persistInvoiceToDatabase d userId inv).filter
        (fun r => r.stripe_invoice_id == inv.id)) = [buildInvoiceRow userId inv] :=
    fun d hd => upsertInvoice_filter d (buildInvoiceRow userId inv) hd
  refine ⟨?_, ?_, ?_, ?_⟩
  · intro n
    induction n with
    | zero => exact hone db huniq
    | succ n ihn =>
      rw [Function.iterate_succ_apply']
      refine hone _ ?_
      rw [ihn]
      simp
  · intro inv2 userId2 h12
    have hfirst := hone db huniq
    have hlen :
        ((persistInvoiceToDatabase db userId inv).filter
          (fun r => r.stripe_invoice_id == inv.id)).length ≤ 1 := by
      rw [hfirst]
      simp
    have hkey2 : (buildInvoiceRow userId2 inv2).stripe_invoice_id = inv.id := h12
    have := upsertInvoice_filter (persistInvoiceToDatabase db userId inv)
      (buildInvoiceRow userId2 inv2) (by rw [hkey2]; exact hlen)
    rw [hkey2] at this
    exact this
  · intro t ht
    simp [buildInvoiceRow, ht, Option.orElse]
  · intro ht
    simp [buildInvoiceRow, ht, Option.orElse]

/-- A concrete invoice payload with total 2999 minor units. -/
def c9Payload : InvoicePayload :=
  { id := "in_1", total := some 2999, amount_paid := some 2999,
    amount_due := some 2999, subtotal := some 2999, tax := some 0,
    discountAmount := none, totalDiscountAmounts := none,
    currency := some "usd", status := some "paid",
    linePeriodStart := some 1700000000, linePeriodEnd := some 1702592000,
    period_start := some 1700000000, period_end := some 1702592000 }

/-- Witness for `invoice_persist_upsert_and_amount_fidelity`: three
deliveries of `c9Payload` into an empty table leave one row with total
2999. -/
theorem invoice_persist_upsert_and_amount_fidelity_witness :
    (((fun d => persistInvoiceToDatabase d "u9" c9Payload)^[3] []).filter
      (fun r => r.stripe_invoice_id == c9Payload.id)) =
        [buildInvoiceRow "u9" c9Payload] ∧
    (buildInvoiceRow "u9" c9Payload).total = 2999 :=
  ⟨(invoice_persist_upsert_and_amount_fidelity [] "u9" c9Payload
      (by simp)).1 2,
   (invoice_persist_upsert_and_amount_fidelity [] "u9" c9Payload
      (by simp)).2.2.2 rfl⟩

end Billing

namespace Billing

/-- C6: a trial-creation request supplying a card whose fingerprint equals
the fingerprint on any other user's subscription row fails with the
duplicate-trial-card error before any provider subscription mutation or
local write; and when no other user's row carries that fingerprint, the
fingerprint check does not block the request — the run is exactly the run
of the rest of the handler. -/
theorem trial_fingerprint_guard
    (env : PayEnv) (pid f : String)
    (hprice : env.priceId = some pid)
    (hpm : env.paymentMethodId.isSome = true)
    (hfp : env.pmFingerprint = some f)
    (htrial : env.isTrial = true) :
    ((∃ r ∈ env.db, r.card_fingerprint = some f ∧ r.user_id ≠ env.userId) →
      (createPayment env).result = .error dupTrialMsg ∧
      (createPayment env).updateCalls = [] ∧
      (createPayment env).createCalls = [] ∧
      (createPayment env).dbWrites = []) ∧
    ((∀ r ∈ env.db, r.user_id ≠ env.userId → r.card_fingerprint ≠ some f) →
      createPayment env = createPaymentBody env pid (some f)) := by
  obtain ⟨pm, hpm2⟩ := Option.isSome_iff_exists.mp hpm
  constructor
  · rintro ⟨r, hmem, hfpr, hne⟩
    have hguard : duplicateTrialGuard env.db env.userId f = true := by
      refine List.any_eq_true.mpr ⟨r, hmem, ?_⟩
      simp [hfpr, hne]
    unfold createPayment
    rw [hprice]
    simp only [hpm2, hfp, htrial, hguard, if_true]
    exact ⟨rfl, rfl, rfl, rfl⟩
  · intro hnone
    have hguard : duplicateTrialGuard env.db env.userId f = false := by
      refine List.any_eq_false.mpr ?_
      intro r hmem hcontra
      obtain ⟨h1, h2⟩ := (Bool.and_eq_true _ _).mp hcontra
      exact hnone r hmem (by simpa using h2) (by simpa using h1)
    unfold createPayment
    rw [hprice]
    simp only [hpm2, hfp, htrial, hguard, Bool.false_eq_true, if_false]
    simp

/-- Another user's subscription row carrying fingerprint fpA. -/
def c6OtherRow : SubRow :=
  { rowId := 11, user_id := "u6other", plan_type := .trial, status := "active",
    stripe_customer_id := some "cus_11", stripe_subscription_id := some "sub_11",
    current_period_start := 1700000000000, current_period_end := 1702592000000,
    cancel_at_period_end := false, card_fingerprint := some "fpA",
    pending_plan_change := none }

/-- A trial-creation request from u6 whose card shares fingerprint fpA. -/
def c6BlockedEnv : PayEnv :=
  { userId := "u6", planType := .monthly, autoRenew := true,
    paymentMethodId := some "pm_6", priceId := some "price_tr",
    isTrial := true, pmFingerprint := some "fpA", db := [c6OtherRow],
    createCustomerResult := .ok "cus_6", attachOutcome := .ok,
    retrieveSub := none, updateResult := .error "unused",
    createResult := .error "unused", clientSecret := none }

/-- The same request with a different card fingerprint fpB. -/
def c6FreeEnv : PayEnv :=
  { userId := "u6", planType := .monthly, autoRenew := true,
    paymentMethodId := some "pm_6", priceId := some "price_tr",
    isTrial := true, pmFingerprint := some "fpB", db := [c6OtherRow],
    createCustomerResult := .ok "cus_6", attachOutcome := .ok,
    retrieveSub := none, updateResult := .error "unused",
    createResult := .error "unused", clientSecret := none }

/-- Witness for `trial_fingerprint_guard`: the shared-fingerprint request
is rejected with no mutation, the different-fingerprint request passes the
check. -/
theorem trial_fingerprint_guard_witness :
    ((createPayment c6BlockedEnv).result = .error dupTrialMsg ∧
      (createPayment c6BlockedEnv).updateCalls = [] ∧
      (createPayment c6BlockedEnv).createCalls = [] ∧
      (createPayment c6BlockedEnv).dbWrites = []) ∧
    createPayment c6FreeEnv = createPaymentBody c6FreeEnv "price_tr" (some "fpB") :=
  ⟨(trial_fingerprint_guard c6BlockedEnv "price_tr" "fpA" rfl rfl rfl rfl).1
      ⟨c6OtherRow, by decide, rfl, by decide⟩,
   (trial_fingerprint_guard c6FreeEnv "price_tr" "fpB" rfl rfl rfl rfl).2
      (by decide)⟩

end Billing

namespace Billing

/-- C4: for a plan change against a live (not canceled-and-expired) remote
subscription whose update succeeds and whose conversion invoice carries a
client secret: a trial-to-paid conversion sets `trial_end` to now with
`create_prorations` (and a reset anchor) and responds
`requiresPayment = true` with that secret; an interval change (outside the
trial-conversion branch) resets the billing-cycle anchor to now with
`create_prorations`; an upgrade with neither applies `create_prorations`
and leaves the billing-cycle anchor unchanged. -/
theorem change_plan_update_params_policy
    (env : ChangePlanEnv) (row : SubRow) (ss u : StripeSub) (s : String)
    (hrow : env.currentSub = some row)
    (hcust : row.stripe_customer_id.isSome = true)
    (hatt : attachStep env.paymentMethodId env.attachOutcome = none)
    (hsid : row.stripe_subscription_id.isSome = true)
    (hret : env.retrieveResult = some ss)
    (hlive : (ss.status == "canceled" &&
      decide (ss.current_period_end * 1000 ≤ env.now)) = false)
    (hupd : env.updateResult = .ok u)
    (hsecret : env.latestInvoiceSecret = .ok (some s)) :
    (row.plan_type = .trial → env.newPlanType ≠ .trial →
      (changePlan env).updateCalls.length = 1 ∧
      (∀ p ∈ (changePlan env).updateCalls,
        p.trialEnd = some .nowLiteral ∧
        p.prorationBehavior = some "create_prorations" ∧
        p.billingCycleAnchor = some "now") ∧
      (changePlan env).result =
        .ok { success := true, requiresPayment := true,
              clientSecret := some s }) ∧
    (((row.plan_type == .trial || ss.status == "trialing") &&
        env.newPlanType != .trial) = false →
      hasIntervalChange row.plan_type env.newPlanType = true →
      (changePlan env).updateCalls.length = 1 ∧
      (∀ p ∈ (changePlan env).updateCalls,
        p.billingCycleAnchor = some "now" ∧
        p.prorationBehavior = some "create_prorations" ∧
        p.trialEnd = none) ∧
      (changePlan env).result =
        .ok { success := true, requiresPayment := true,
              clientSecret := some s }) ∧
    (((row.plan_type == .trial || ss.status == "trialing") &&
        env.newPlanType != .trial) = false →
      hasIntervalChange row.plan_type env.newPlanType = false →
      isUpgrade row.plan_type env.newPlanType = true →
      (changePlan env).updateCalls.length = 1 ∧
      (∀ p ∈ (changePlan env).updateCalls,
        p.prorationBehavior = some "create_prorations" ∧
        p.billingCycleAnchor = some "unchanged") ∧
      (changePlan env).result =
        .ok { success := true, requiresPayment := true,
              clientSecret := some s }) := by
  obtain ⟨cust, hcust2⟩ := Option.isSome_iff_exists.mp hcust
  obtain ⟨sid, hsid2⟩ := Option.isSome_iff_exists.mp hsid
  unfold changePlan
  rw [hrow]
  simp only [hcust2, hatt, hsid2, hret, hupd, hsecret, hlive,
    Bool.false_eq_true, if_false]
  refine ⟨?_, ?_, ?_⟩
  · intro htrial hnewt
    have hguard : ((row.plan_type == PlanType.trial || ss.status == "trialing")
        && env.newPlanType != PlanType.trial) = true := by
      simp [htrial, bne_iff_ne, hnewt]
    simp only [hguard, if_true]
    have hcond : (row.plan_type == PlanType.trial || ss.status == "trialing")
        = true := by
      simp [htrial]
    simp only [hcond, Bool.true_or, if_true]
    refine ⟨rfl, ?_, by first | rfl | trivial⟩
    intro p hp
    rw [List.mem_singleton.mp hp]
    exact ⟨rfl, rfl, rfl⟩
  · intro hguard hic
    simp only [hguard, Bool.false_eq_true, if_false, hic, if_true]
    simp only [hic, Bool.or_true, if_true]
    refine ⟨rfl, ?_, by first | rfl | trivial⟩
    intro p hp
    rw [List.mem_singleton.mp hp]
    exact ⟨rfl, rfl, rfl⟩
  · intro hguard hic hup
    simp only [hguard, Bool.false_eq_true, if_false, hic, hup, if_true]
    simp only [hup, Bool.or_true, Bool.true_or, if_true]
    refine ⟨rfl, ?_, by first | rfl | trivial⟩
    intro p hp
    rw [List.mem_singleton.mp hp]
    exact ⟨rfl, rfl⟩

end Billing

namespace Billing

/-- A trial subscription about to convert to monthly. -/
def c4TrialRow : SubRow :=
  { rowId := 14, user_id := "u14", plan_type := .trial, status := "active",
    stripe_customer_id := some "cus_14", stripe_subscription_id := some "sub_14",
    current_period_start := 1700000000000, current_period_end := 1702592000000,
    cancel_at_period_end := false, card_fingerprint := none,
    pending_plan_change := none }

/-- The trialing remote subscription backing `c4TrialRow`. -/
def c4TrialRemote : StripeSub :=
  { id := "sub_14", status := "trialing", current_period_start := 1700000000,
    current_period_end := 1702592000, cancel_at_period_end := false,
    itemId := "si_14" }

/-- The remote subscription after the conversion update. -/
def c4TrialAfter : StripeSub :=
  { id := "sub_14", status := "active", current_period_start := 1701000000,
    current_period_end := 1703592000, cancel_at_period_end := false,
    itemId := "si_14" }

/-- Change-plan request converting `c4TrialRow` from trial to monthly. -/
def c4TrialEnv : ChangePlanEnv :=
  { currentSub := some c4TrialRow, newPlanType := .monthly,
    newPriceId := "price_m", paymentMethodId := some "pm_14",
    attachOutcome := .ok, retrieveResult := some c4TrialRemote,
    updateResult := .ok c4TrialAfter, createResult := .error "unused",
    latestInvoiceSecret := .ok (some "sec_14"), now := 1701000000000 }

/-- A monthly subscription about to switch to annual. -/
def c4IntervalRow : SubRow :=
  { rowId := 15, user_id := "u15", plan_type := .monthly, status := "active",
    stripe_customer_id := some "cus_15", stripe_subscription_id := some "sub_15",
    current_period_start := 1700000000000, current_period_end := 1702592000000,
    cancel_at_period_end := false, card_fingerprint := none,
    pending_plan_change := none }

/-- The active remote subscription backing `c4IntervalRow`. -/
def c4IntervalRemote : StripeSub :=
  { id := "sub_15", status := "active", current_period_start := 1700000000,
    current_period_end := 1702592000, cancel_at_period_end := false,
    itemId := "si_15" }

/-- The remote subscription after the interval change. -/
def c4IntervalAfter : StripeSub :=
  { id := "sub_15", status := "active", current_period_start := 1701000000,
    current_period_end := 1733000000, cancel_at_period_end := false,
    itemId := "si_15" }

/-- Change-plan request switching `c4IntervalRow` from monthly to annual. -/
def c4IntervalEnv : ChangePlanEnv :=
  { currentSub := some c4IntervalRow, newPlanType := .annual,
    newPriceId := "price_a", paymentMethodId := some "pm_15",
    attachOutcome := .ok, retrieveResult := some c4IntervalRemote,
    updateResult := .ok c4IntervalAfter, createResult := .error "unused",
    latestInvoiceSecret := .ok (some "sec_15"), now := 1701000000000 }

/-- Witness for `change_plan_update_params_policy`: the trial-to-monthly
conversion and the monthly-to-annual interval change at concrete inputs. -/
theorem change_plan_update_params_policy_witness :
    ((changePlan c4TrialEnv).updateCalls.length = 1 ∧
      (∀ p ∈ (changePlan c4TrialEnv).updateCalls,
        p.trialEnd = some .nowLiteral ∧
        p.prorationBehavior = some "create_prorations" ∧
        p.billingCycleAnchor = some "now") ∧
      (changePlan c4TrialEnv).result =
        .ok { success := true, requiresPayment := true,
              clientSecret := some "sec_14" }) ∧
    ((changePlan c4IntervalEnv).updateCalls.length = 1 ∧
      (∀ p ∈ (changePlan c4IntervalEnv).updateCalls,
        p.billingCycleAnchor = some "now" ∧
        p.prorationBehavior = some "create_prorations" ∧
        p.trialEnd = none) ∧
      (changePlan c4IntervalEnv).result =
        .ok { success := true, requiresPayment := true,
              clientSecret := some "sec_15" }) :=
  ⟨(change_plan_update_params_policy c4TrialEnv c4TrialRow c4TrialRemote
      c4TrialAfter "sec_14" rfl rfl rfl rfl rfl (by decide) rfl rfl).1
      rfl (by decide),
   (change_plan_update_params_policy c4IntervalEnv c4IntervalRow
      c4IntervalRemote c4IntervalAfter "sec_15" rfl rfl rfl rfl rfl
      (by decide) rfl rfl).2.1 (by decide) (by decide)⟩

end Billing

namespace Billing

/-- If a change-plan run issued its remote update and that update failed,
the run performed no local write and surfaced the provider's message. -/
lemma changePlan_update_fail (env : ChangePlanEnv) (m : String)
    (hcalls : (changePlan env).updateCalls ≠ [])
    (herr : env.updateResult = .error m) :
    (changePlan env).dbWrites = [] ∧ (changePlan env).result = .error m := by
  unfold changePlan at hcalls ⊢
  cases hcs : env.currentSub with
  | none => simp [hcs, failRun] at hcalls
  | some row =>
    simp only [hcs] at hcalls ⊢
    cases hcust : row.stripe_customer_id with
    | none => simp [hcust, failRun] at hcalls
    | some cust =>
      simp only [hcust] at hcalls ⊢
      cases hat : attachStep env.paymentMethodId env.attachOutcome with
      | some ma => simp [hat, failRun] at hcalls
      | none =>
        simp only [hat] at hcalls ⊢
        cases hsid : row.stripe_subscription_id with
        | none => simp [hsid, failRun] at hcalls
        | some sid =>
          simp only [hsid] at hcalls ⊢
          cases hret : env.retrieveResult with
          | none => simp [hret, failRun] at hcalls
          | some ss =>
            simp only [hret] at hcalls ⊢
            by_cases hce : (ss.status == "canceled" &&
                decide (ss.current_period_end * 1000 ≤ env.now)) = true
            · simp only [hce, if_true] at hcalls
              cases hcr : env.createResult with
              | error m2 => simp [hcr] at hcalls
              | ok ns =>
                cases hsec : env.latestInvoiceSecret with
                | error m3 => simp [hcr, hsec] at hcalls
                | ok sec => simp [hcr, hsec] at hcalls
            · simp only [Bool.not_eq_true] at hce
              simp only [hce, Bool.false_eq_true, if_false, herr] at hcalls ⊢
              exact ⟨by first | rfl | trivial, by first | rfl | trivial⟩

/-- If a change-plan run issued a remote create and that create failed, the
run performed no local write and surfaced the provider's message. -/
lemma changePlan_create_fail (env : ChangePlanEnv) (m : String)
    (hcalls : (changePlan env).createCalls ≠ [])
    (herr : env.createResult = .error m) :
    (changePlan env).dbWrites = [] ∧ (changePlan env).result = .error m := by
  unfold changePlan at hcalls ⊢
  cases hcs : env.currentSub with
  | none => simp [hcs, failRun] at hcalls
  | some row =>
    simp only [hcs] at hcalls ⊢
    cases hcust : row.stripe_customer_id with
    | none => simp [hcust, failRun] at hcalls
    | some cust =>
      simp only [hcust] at hcalls ⊢
      cases hat : attachStep env.paymentMethodId env.attachOutcome with
      | some ma => simp [hat, failRun] at hcalls
      | none =>
        simp only [hat] at hcalls ⊢
        cases hsid : row.stripe_subscription_id with
        | none => simp [hsid, failRun] at hcalls
        | some sid =>
          simp only [hsid] at hcalls ⊢
          cases hret : env.retrieveResult with
          | none => simp [hret, failRun] at hcalls
          | some ss =>
            simp only [hret] at hcalls ⊢
            by_cases hce : (ss.status == "canceled" &&
                decide (ss.current_period_end * 1000 ≤ env.now)) = true
            · simp only [hce, if_true, herr] at hcalls ⊢
              exact ⟨by first | rfl | trivial, by first | rfl | trivial⟩
            · simp only [Bool.not_eq_true] at hce
              simp only [hce, Bool.false_eq_true, if_false] at hcalls
              cases hur : env.updateResult with
              | error m2 => simp [hur] at hcalls
              | ok us =>
                by_cases hpay : ((row.plan_type == PlanType.trial ||
                    ss.status == "trialing") ||
                    isUpgrade row.plan_type env.newPlanType ||
                    hasIntervalChange row.plan_type env.newPlanType) = true
                · simp only [hur, hpay, if_true] at hcalls
                  cases hsec : env.latestInvoiceSecret with
                  | error m3 => simp [hsec] at hcalls
                  | ok sec =>
                    cases sec with
                    | none => simp [hsec] at hcalls
                    | some s => simp [hsec] at hcalls
                · simp only [Bool.not_eq_true] at hpay
                  simp only [hur, hpay, Bool.false_eq_true, if_false] at hcalls
                  simp at hcalls

end Billing

namespace Billing

/-- If the create-payment body issued its remote update and that update
failed, no local write happened and the message surfaced. -/
lemma createPaymentBody_update_fail (env : PayEnv) (pid : String)
    (fp : Option String) (m : String)
    (hcalls : (createPaymentBody env pid fp).updateCalls ≠ [])
    (herr : env.updateResult = .error m) :
    (createPaymentBody env pid fp).dbWrites = [] ∧
    (createPaymentBody env pid fp).result = .error m := by
  unfold createPaymentBody at hcalls ⊢
  cases hcust : (match env.db.find? (fun r => r.user_id == env.userId) with
      | some r =>
        match r.stripe_customer_id with
        | some c => Except.ok c
        | none => env.createCustomerResult
      | none => env.createCustomerResult : Except String String) with
  | error mc => simp [hcust, failRun] at hcalls
  | ok cust =>
    simp only [hcust] at hcalls ⊢
    cases hat : attachStep env.paymentMethodId env.attachOutcome with
    | some ma => simp [hat, failRun] at hcalls
    | none =>
      simp only [hat] at hcalls ⊢
      cases hlive : (match env.db.find? (fun r => r.user_id == env.userId) with
          | none => none
          | some r =>
            match r.stripe_subscription_id with
            | none => none
            | some _ =>
              match env.retrieveSub with
              | none => none
              | some s => if s.status == "canceled" then none else some s :
            Option StripeSub) with
      | some live =>
        simp only [hlive, herr] at hcalls ⊢
        exact ⟨by first | rfl | trivial, by first | rfl | trivial⟩
      | none =>
        simp only [hlive] at hcalls
        cases hcr : env.createResult with
        | error m2 => simp [hcr] at hcalls
        | ok ns => simp [hcr] at hcalls

/-- If the create-payment body issued a remote create and that create
failed, no local write happened and the message surfaced. -/
lemma createPaymentBody_create_fail (env : PayEnv) (pid : String)
    (fp : Option String) (m : String)
    (hcalls : (createPaymentBody env pid fp).createCalls ≠ [])
    (herr : env.createResult = .error m) :
    (createPaymentBody env pid fp).dbWrites = [] ∧
    (createPaymentBody env pid fp).result = .error m := by
  unfold createPaymentBody at hcalls ⊢
  cases hcust : (match env.db.find? (fun r => r.user_id == env.userId) with
      | some r =>
        match r.stripe_customer_id with
        | some c => Except.ok c
        | none => env.createCustomerResult
      | none => env.createCustomerResult : Except String String) with
  | error mc => simp [hcust, failRun] at hcalls
  | ok cust =>
    simp only [hcust] at hcalls ⊢
    cases hat : attachStep env.paymentMethodId env.attachOutcome with
    | some ma => simp [hat, failRun] at hcalls
    | none =>
      simp only [hat] at hcalls ⊢
      cases hlive : (match env.db.find? (fun r => r.user_id == env.userId) with
          | none => none
          | some r =>
            match r.stripe_subscription_id with
            | none => none
            | some _ =>
              match env.retrieveSub with
              | none => none
              | some s => if s.status == "canceled" then none else some s :
            Option StripeSub) with
      | some live =>
        simp only [hlive] at hcalls
        cases hur : env.updateResult with
        | error m2 => simp [hur] at hcalls
        | ok us => simp [hur] at hcalls
      | none =>
        simp only [hlive, herr] at hcalls ⊢
        exact ⟨by first | rfl | trivial, by first | rfl | trivial⟩

/-- Lifts a body-level property through the price check and the
fingerprint guard: a nonempty call list means the guard passed and the run
is the body's run. -/
lemma createPayment_eq_body_of_calls (env : PayEnv)
    (hcalls : (createPayment env).updateCalls ≠ [] ∨
      (createPayment env).createCalls ≠ []) :
    ∃ pid fp, env.priceId = some pid ∧
      createPayment env = createPaymentBody env pid fp := by
  unfold createPayment at hcalls ⊢
  cases hp : env.priceId with
  | none => simp [hp, failRun] at hcalls
  | some pid =>
    simp only [hp] at hcalls ⊢
    cases htr : env.isTrial with
    | false =>
      refine ⟨pid, (match env.paymentMethodId with
        | some _ => env.pmFingerprint
        | none => none), rfl, ?_⟩
      simp only [htr, Bool.false_eq_true, if_false]
    | true =>
      simp only [htr, if_true] at hcalls ⊢
      cases hfp : (match env.paymentMethodId with
          | some _ => env.pmFingerprint
          | none => none : Option String) with
      | none =>
        refine ⟨pid, none, rfl, ?_⟩
        simp only [hfp]
      | some f =>
        simp only [hfp] at hcalls ⊢
        by_cases hg : duplicateTrialGuard env.db env.userId f = true
        · simp [hg, failRun] at hcalls
        · simp only [Bool.not_eq_true] at hg
          simp only [hg, Bool.false_eq_true, if_false]
          exact ⟨pid, some f, rfl, rfl⟩

end Billing

namespace Billing

/-- If a cancel run issued its remote update and that update failed, no
local write happened and the message surfaced. -/
lemma cancel_update_fail (env : CancelEnv) (m : String)
    (hcalls : (cancelSubscription env).updateCalls ≠ [])
    (herr : env.updateResult = .error m) :
    (cancelSubscription env).dbWrites = [] ∧
    (cancelSubscription env).result = .error m := by
  unfold cancelSubscription at hcalls ⊢
  cases hcs : env.currentSub with
  | none => simp [hcs, failRun] at hcalls
  | some row =>
    simp only [hcs] at hcalls ⊢
    cases hsid : row.stripe_subscription_id with
    | none => simp [hsid, failRun] at hcalls
    | some sid =>
      simp only [hsid, herr] at hcalls ⊢
      exact ⟨by first | rfl | trivial, by first | rfl | trivial⟩

/-- If a reactivate run issued its remote update (the resume branch) and
that update failed, no local write happened and the message surfaced. -/
lemma reactivate_update_fail (env : ReactivateEnv) (m : String)
    (hcalls : (reactivateSubscription env).updateCalls ≠ [])
    (herr : env.updateResult = .error m) :
    (reactivateSubscription env).dbWrites = [] ∧
    (reactivateSubscription env).result = .error m := by
  unfold reactivateSubscription at hcalls ⊢
  cases hcs : env.currentSub with
  | none => simp [hcs, failRun] at hcalls
  | some row =>
    simp only [hcs] at hcalls ⊢
    by_cases hexp : row.current_period_end ≤ env.now
    · simp [if_pos hexp, failRun] at hcalls
    · simp only [if_neg hexp] at hcalls ⊢
      cases hsid : row.stripe_subscription_id with
      | none => simp [hsid, failRun] at hcalls
      | some sid =>
        simp only [hsid] at hcalls ⊢
        cases hret : env.retrieveResult with
        | none => simp [hret, failRun] at hcalls
        | some ss =>
          simp only [hret] at hcalls ⊢
          by_cases hres : (ss.status == "active" || ss.status == "trialing") = true
          · simp only [hres, if_true, herr] at hcalls ⊢
            exact ⟨by first | rfl | trivial, by first | rfl | trivial⟩
          · simp only [Bool.not_eq_true] at hres
            simp only [hres, Bool.false_eq_true, if_false] at hcalls
            by_cases hcanc : (ss.status == "canceled") = true
            · simp only [hcanc, if_true] at hcalls
              cases hcr : env.createResult with
              | error m2 => simp [hcr] at hcalls
              | ok ns => simp [hcr] at hcalls
            · simp only [Bool.not_eq_true] at hcanc
              simp [hcanc, failRun] at hcalls

/-- If a reactivate run issued a remote create (the recreation branch) and
that create failed, no local write happened and the message surfaced. -/
lemma reactivate_create_fail (env : ReactivateEnv) (m : String)
    (hcalls : (reactivateSubscription env).createCalls ≠ [])
    (herr : env.createResult = .error m) :
    (reactivateSubscription env).dbWrites = [] ∧
    (reactivateSubscription env).result = .error m := by
  unfold reactivateSubscription at hcalls ⊢
  cases hcs : env.currentSub with
  | none => simp [hcs, failRun] at hcalls
  | some row =>
    simp only [hcs] at hcalls ⊢
    by_cases hexp : row.current_period_end ≤ env.now
    · simp [if_pos hexp, failRun] at hcalls
    · simp only [if_neg hexp] at hcalls ⊢
      cases hsid : row.stripe_subscription_id with
      | none => simp [hsid, failRun] at hcalls
      | some sid =>
        simp only [hsid] at hcalls ⊢
        cases hret : env.retrieveResult with
        | none => simp [hret, failRun] at hcalls
        | some ss =>
          simp only [hret] at hcalls ⊢
          by_cases hres : (ss.status == "active" || ss.status == "trialing") = true
          · simp only [hres, if_true] at hcalls
            cases hur : env.updateResult with
            | error m2 => simp [hur] at hcalls
            | ok u => simp [hur] at hcalls
          · simp only [Bool.not_eq_true] at hres
            simp only [hres, Bool.false_eq_true, if_false] at hcalls ⊢
            by_cases hcanc : (ss.status == "canceled") = true
            · simp only [hcanc, if_true, herr] at hcalls ⊢
              exact ⟨by first | rfl | trivial, by first | rfl | trivial⟩
            · simp only [Bool.not_eq_true] at hcanc
              simp [hcanc, failRun] at hcalls

/-- C5: across the four user-initiated transition handlers, whenever the
remote provider mutation the run issued (subscription update or create)
fails, the run performs no write at all to the local subscriptions row and
surfaces the provider's error verbatim — the remote call always precedes
the local write. -/
theorem handlers_no_local_write_on_remote_failure
    (cp1 cp2 : ChangePlanEnv) (pay1 pay2 : PayEnv) (cn : CancelEnv)
    (re1 re2 : ReactivateEnv) (m1 m2 m3 m4 m5 m6 m7 : String)
    (h1c : (changePlan cp1).updateCalls ≠ [])
    (h1e : cp1.updateResult = .error m1)
    (h2c : (changePlan cp2).createCalls ≠ [])
    (h2e : cp2.createResult = .error m2)
    (h3c : (createPayment pay1).updateCalls ≠ [])
    (h3e : pay1.updateResult = .error m3)
    (h4c : (createPayment pay2).createCalls ≠ [])
    (h4e : pay2.createResult = .error m4)
    (h5c : (cancelSubscription cn).updateCalls ≠ [])
    (h5e : cn.updateResult = .error m5)
    (h6c : (reactivateSubscription re1).updateCalls ≠ [])
    (h6e : re1.updateResult = .error m6)
    (h7c : (reactivateSubscription re2).createCalls ≠ [])
    (h7e : re2.createResult = .error m7) :
    ((changePlan cp1).dbWrites = [] ∧ (changePlan cp1).result = .error m1) ∧
    ((changePlan cp2).dbWrites = [] ∧ (changePlan cp2).result = .error m2) ∧
    ((createPayment pay1).dbWrites = [] ∧
      (createPayment pay1).result = .error m3) ∧
    ((createPayment pay2).dbWrites = [] ∧
      (createPayment pay2).result = .error m4) ∧
    ((cancelSubscription cn).dbWrites = [] ∧
      (cancelSubscription cn).result = .error m5) ∧
    ((reactivateSubscription re1).dbWrites = [] ∧
      (reactivateSubscription re1).result = .error m6) ∧
    ((reactivateSubscription re2).dbWrites = [] ∧
      (reactivateSubscription re2).result = .error m7) := by
  refine ⟨changePlan_update_fail cp1 m1 h1c h1e,
    changePlan_create_fail cp2 m2 h2c h2e, ?_, ?_,
    cancel_update_fail cn m5 h5c h5e,
    reactivate_update_fail re1 m6 h6c h6e,
    reactivate_create_fail re2 m7 h7c h7e⟩
  · obtain ⟨pid, fp, hpid, heq⟩ :=
      createPayment_eq_body_of_calls pay1 (Or.inl h3c)
    rw [heq] at h3c ⊢
    exact createPaymentBody_update_fail pay1 pid fp m3 h3c h3e
  · obtain ⟨pid, fp, hpid, heq⟩ :=
      createPayment_eq_body_of_calls pay2 (Or.inr h4c)
    rw [heq] at h4c ⊢
    exact createPaymentBody_create_fail pay2 pid fp m4 h4c h4e

end Billing

namespace Billing

/-- Change-plan run whose remote update fails. -/
def c5ChangeUpdEnv : ChangePlanEnv :=
  { currentSub := some c1Row, newPlanType := .monthly, newPriceId := "p",
    paymentMethodId := none, attachOutcome := .ok,
    retrieveResult := some c1Remote, updateResult := .error "boom1",
    createResult := .error "x", latestInvoiceSecret := .ok none,
    now := 1710000000000 }

/-- Change-plan run on a canceled-and-expired remote whose create fails. -/
def c5ChangeCreateEnv : ChangePlanEnv :=
  { currentSub := some c1Row, newPlanType := .monthly, newPriceId := "p",
    paymentMethodId := none, attachOutcome := .ok,
    retrieveResult := some c10Remote, updateResult := .error "x",
    createResult := .error "boom2", latestInvoiceSecret := .ok none,
    now := 1710000000000 }

/-- Create-payment run on a live remote whose update fails. -/
def c5PayUpdEnv : PayEnv :=
  { userId := "u6other", planType := .monthly, autoRenew := true,
    paymentMethodId := none, priceId := some "p", isTrial := false,
    pmFingerprint := none, db := [c6OtherRow],
    createCustomerResult := .error "x", attachOutcome := .ok,
    retrieveSub := some c1Remote, updateResult := .error "boom3",
    createResult := .error "x", clientSecret := none }

/-- Create-payment run with no prior row whose create fails. -/
def c5PayCreateEnv : PayEnv :=
  { userId := "u9x", planType := .monthly, autoRenew := true,
    paymentMethodId := none, priceId := some "p", isTrial := false,
    pmFingerprint := none, db := [],
    createCustomerResult := .ok "cus_x", attachOutcome := .ok,
    retrieveSub := none, updateResult := .error "x",
    createResult := .error "boom4", clientSecret := none }

/-- Cancel run whose remote update fails. -/
def c5CancelEnv : CancelEnv :=
  { currentSub := some c1Row, updateResult := .error "boom5" }

/-- Reactivate run (resume branch) whose remote update fails. -/
def c5ReUpdEnv : ReactivateEnv :=
  { currentSub := some c2Row, paymentMethodId := none, priceId := "p",
    retrieveResult := some c1Remote, updateResult := .error "boom6",
    createResult := .error "x", now := 1701000000000 }

/-- Reactivate run (recreation branch) whose remote create fails. -/
def c5ReCreateEnv : ReactivateEnv :=
  { currentSub := some c2Row, paymentMethodId := none, priceId := "p",
    retrieveResult := some c2Remote, updateResult := .error "x",
    createResult := .error "boom7", now := 1701000000000 }

/-- Witness for `handlers_no_local_write_on_remote_failure` at concrete
runs of all four handlers. -/
theorem handlers_no_local_write_on_remote_failure_witness :
    ((changePlan c5ChangeUpdEnv).dbWrites = [] ∧
      (changePlan c5ChangeUpdEnv).result = .error "boom1") ∧
    ((changePlan c5ChangeCreateEnv).dbWrites = [] ∧
      (changePlan c5ChangeCreateEnv).result = .error "boom2") ∧
    ((createPayment c5PayUpdEnv).dbWrites = [] ∧
      (createPayment c5PayUpdEnv).result = .error "boom3") ∧
    ((createPayment c5PayCreateEnv).dbWrites = [] ∧
      (createPayment c5PayCreateEnv).result = .error "boom4") ∧
    ((cancelSubscription c5CancelEnv).dbWrites = [] ∧
      (cancelSubscription c5CancelEnv).result = .error "boom5") ∧
    ((reactivateSubscription c5ReUpdEnv).dbWrites = [] ∧
      (reactivateSubscription c5ReUpdEnv).result = .error "boom6") ∧
    ((reactivateSubscription c5ReCreateEnv).dbWrites = [] ∧
      (reactivateSubscription c5ReCreateEnv).result = .error "boom7") :=
  handlers_no_local_write_on_remote_failure
    c5ChangeUpdEnv c5ChangeCreateEnv c5PayUpdEnv c5PayCreateEnv
    c5CancelEnv c5ReUpdEnv c5ReCreateEnv
    "boom1" "boom2" "boom3" "boom4" "boom5" "boom6" "boom7"
    (by decide) rfl (by decide) rfl (by decide) rfl (by decide) rfl
    (by decide) rfl (by decide) rfl (by decide) rfl

end Billing
